import Mathlib

/-!
Verification of the audio-to-video creator's visual composition engine.

The definitions below are shallow embeddings of the application code:
the timeline state and its add/remove operations (App.onAssetSelect and
the TimelineEditor remove button), the image-edit pipeline
(MediaCreator.applyImageEdits and the imageFilters catalog), the clip
creation math (MediaCreator.createVideoClip), and the export progress
loop (ExportControls.handleExport).  Numeric values that the source
holds as JavaScript numbers are modelled as rationals.
-/

/-! ## Data model (App.tsx interfaces) -/

/-- Kind of a visual asset: the source union type image | video | clipart. -/
inductive AssetKind where
  | image
  | video
  | clipart
deriving DecidableEq

/-- VisualAsset interface from App.tsx: id, type, url, thumbnail, name,
optional intrinsic duration (seconds). -/
structure VisualAsset where
  id : String
  kind : AssetKind
  url : String
  thumbnail : String
  name : String
  duration : Option ℚ
deriving DecidableEq

/-- TimelineItem interface from App.tsx: an asset placed on the timeline
with startTime, duration and position fields. -/
structure TimelineItem where
  id : String
  asset : VisualAsset
  startTime : ℚ
  duration : ℚ
  position : ℕ
deriving DecidableEq

/-! ## Timeline operations -/

/-- The duration given to a new timeline item: `asset.duration || 3` in
App.onAssetSelect.  JavaScript `||` treats a present 0 as falsy, so a
zero intrinsic duration also falls back to 3. -/
def itemDuration (a : VisualAsset) : ℚ :=
  match a.duration with
  | some d => if d = 0 then 3 else d
  | none => 3

/-- App.onAssetSelect: appends a new item with startTime 0, duration
`asset.duration || 3` and position equal to the current item count.
The fresh id (Date.now().toString()) is passed in. -/
def addItem (items : List TimelineItem) (a : VisualAsset) (newId : String) :
    List TimelineItem :=
  items ++ [⟨newId, a, 0, itemDuration a, items.length⟩]

/-- TimelineEditor remove button: `timelineItems.filter(t => t.id !== item.id)`.
No renumbering of position fields happens. -/
def removeItem (items : List TimelineItem) (rid : String) : List TimelineItem :=
  items.filter (fun t => t.id ≠ rid)

/-- Timeline states reachable from the empty timeline by the add and
remove operations the UI offers. -/
inductive Reachable : List TimelineItem → Prop
  | empty : Reachable []
  | add (items : List TimelineItem) (a : VisualAsset) (nid : String) :
      Reachable items → Reachable (addItem items a nid)
  | remove (items : List TimelineItem) (rid : String) :
      Reachable items → Reachable (removeItem items rid)

/-- Two placements overlap when their half-open intervals
[start, start+duration) intersect. -/
def overlaps (x y : TimelineItem) : Prop :=
  x.startTime < y.startTime + y.duration ∧ y.startTime < x.startTime + x.duration

instance (x y : TimelineItem) : Decidable (overlaps x y) :=
  inferInstanceAs (Decidable (_ ∧ _))

/-- Position fields are contiguous 0,1,2,... with no holes. -/
def contiguousPositions (items : List TimelineItem) : Prop :=
  items.map (fun t => t.position) = List.range items.length

instance (items : List TimelineItem) : Decidable (contiguousPositions items) :=
  inferInstanceAs (Decidable (_ = _))

/-- Helper: a map that fixes every element of a list is the identity. -/
theorem list_map_self {α : Type} (f : α → α) :
    ∀ l : List α, (∀ a ∈ l, f a = a) → l.map f = l
  | [], _ => rfl
  | a :: t, h => by
      have ha : f a = a := h a (by simp)
      have ht := list_map_self f t (fun x hx => h x (by simp [hx]))
      simp [ha, ht]

/-- Invariant of all reachable timelines: every item starts at time 0 and
carries the duration computed at creation from its asset. -/
theorem reachable_invariant :
    ∀ items, Reachable items →
      ∀ it ∈ items, it.startTime = 0 ∧ it.duration = itemDuration it.asset := by
  intro items h
  induction h with
  | empty => intro it hit; simp at hit
  | add items a nid _ ih =>
      intro it hit
      rcases List.mem_append.mp hit with hold | hnew
      · exact ih it hold
      · simp at hnew
        subst hnew
        exact ⟨rfl, rfl⟩
  | remove items rid _ ih =>
      intro it hit
      exact ih it (List.mem_of_mem_filter hit)

/-! Concrete assets and timelines used as inputs below. -/

/-- A concrete image asset with no intrinsic duration. -/
def assetA : VisualAsset := ⟨"1", .image, "a.png", "a.png", "A", none⟩

/-- A second concrete image asset with no intrinsic duration. -/
def assetB : VisualAsset := ⟨"2", .image, "b.png", "b.png", "B", none⟩

/-- A third concrete image asset with no intrinsic duration. -/
def assetC : VisualAsset := ⟨"3", .image, "c.png", "c.png", "C", none⟩

/-- An asset whose intrinsic duration is present but zero. -/
def assetZero : VisualAsset := ⟨"z", .video, "z.mp4", "z.png", "Z", some 0⟩

/-- Timeline after adding assetA and then assetB from the empty state. -/
def twoItemTimeline : List TimelineItem := addItem (addItem [] assetA "a") assetB "b"

/-- The first item of `twoItemTimeline` as created by the add operation. -/
def itemA : TimelineItem := ⟨"a", assetA, 0, 3, 0⟩

/-- The second item of `twoItemTimeline` as created by the add operation. -/
def itemB : TimelineItem := ⟨"b", assetB, 0, 3, 1⟩

/-- Timeline after adding assetA, assetB, assetC from the empty state. -/
def threeItemTimeline : List TimelineItem :=
  addItem (addItem (addItem [] assetA "a") assetB "b") assetC "c"

/-- C3: placement is never validated.  Adding two assets from the empty
timeline succeeds and yields two distinct items whose intervals
[0,3) overlap, with no transition bridging them (timeline items carry
no transition data at all), refuting the claimed rejection of
overlapping placements and the claimed no-overlap invariant. -/
theorem c3_counterexample :
    Reachable twoItemTimeline ∧ itemA ∈ twoItemTimeline ∧ itemB ∈ twoItemTimeline ∧
      itemA ≠ itemB ∧ overlaps itemA itemB := by
  refine ⟨?_, by decide, by decide, by decide, by norm_num [overlaps, itemA, itemB]⟩
  exact Reachable.add _ assetB "b" (Reachable.add _ assetA "a" Reachable.empty)

/-- C3 amended: onAssetSelect performs no validation and every add
succeeds, appending an item that starts at 0; consequently any two items
with positive durations in any reachable timeline overlap. -/
theorem c3_amended (T : List TimelineItem) (h : Reachable T)
    (x y : TimelineItem) (hx : x ∈ T) (hy : y ∈ T)
    (hdx : 0 < x.duration) (hdy : 0 < y.duration) : overlaps x y := by
  have hx0 := (reachable_invariant T h x hx).1
  have hy0 := (reachable_invariant T h y hy).1
  constructor
  · rw [hx0, hy0]; linarith
  · rw [hx0, hy0]; linarith

/-- C3 witness: the amended theorem applied to the concrete two-item timeline. -/
theorem c3_witness :
    0 < itemA.duration ∧ 0 < itemB.duration ∧ overlaps itemA itemB := by
  refine ⟨by decide, by decide, ?_⟩
  exact c3_amended twoItemTimeline
    (Reachable.add _ assetB "b" (Reachable.add _ assetA "a" Reachable.empty))
    itemA itemB (by decide) (by decide) (by decide) (by decide)

/-- C7: removing the middle item of a three-item timeline leaves the
surviving position fields [0, 2], which are not contiguous — removal
does not renumber order indices. -/
theorem c7_counterexample :
    (removeItem threeItemTimeline "b").map (fun t => t.position) = [0, 2] ∧
      ¬ contiguousPositions (removeItem threeItemTimeline "b") := by
  constructor
  · decide
  · decide

/-- C7 amended: removal filters by id and leaves every surviving item — in
particular its position field — unchanged; an item survives exactly when
its id differs from the removed one, and the result is a sublist of the
original timeline. -/
theorem c7_amended (items : List TimelineItem) (rid : String) :
    (∀ it : TimelineItem, it ∈ removeItem items rid ↔ it ∈ items ∧ it.id ≠ rid) ∧
      List.Sublist (removeItem items rid) items := by
  constructor
  · intro it
    simp [removeItem, List.mem_filter]
  · exact List.filter_sublist items

/-- C10: the claim fails for a present-but-zero intrinsic duration —
`asset.duration || 3` treats 0 as falsy, so the created item gets
duration 3, not the asset's intrinsic duration 0. -/
theorem c10_counterexample :
    (addItem [] assetZero "z0").map (fun t => t.duration) = [3] ∧
      assetZero.duration = some 0 ∧ (3 : ℚ) ≠ 0 := by
  refine ⟨by decide, by decide, by decide⟩

/-- C10 amended: every added item is created with startTime 0, duration
`asset.duration || 3` (the intrinsic duration when present and nonzero,
3 otherwise — a present zero also yields 3), and position equal to the
current item count; removal never alters surviving items, so every
reachable timeline state has all items with startTime 0 and with the
duration computed at creation. -/
theorem c10_amended (T : List TimelineItem) (h : Reachable T) :
    (∀ it ∈ T, it.startTime = 0 ∧ it.duration = itemDuration it.asset) ∧
      ∀ (a : VisualAsset) (nid : String),
        addItem T a nid = T ++ [⟨nid, a, 0, itemDuration a, T.length⟩] := by
  exact ⟨reachable_invariant T h, fun a nid => rfl⟩

/-- C10 witness: the amended theorem applied to the timeline obtained by
adding assetA and assetB and then removing the first item. -/
theorem c10_witness :
    itemB.startTime = 0 ∧ itemB.duration = itemDuration itemB.asset := by
  exact (c10_amended (removeItem twoItemTimeline "a")
    (Reachable.remove _ "a"
      (Reachable.add _ assetB "b" (Reachable.add _ assetA "a" Reachable.empty)))).1
    itemB (by decide)

/-! ## Export Coordinator (ExportControls.handleExport) -/

/-- One tick of the export progress interval in handleExport: when the
previous value has reached 100, the interval is cleared, onExport fires
and the value stays 100; otherwise the value advances by 5 and nothing
fires.  The Bool records whether onExport fired on this tick. -/
def exportTickFn (p : ℕ) : ℕ × Bool :=
  if 100 ≤ p then (100, true) else (p + 5, false)

/-- Runs the interval from progress p for at most the given number of
ticks, stopping once onExport has fired (the interval is cleared). -/
def exportTraceAux : ℕ → ℕ → List (ℕ × Bool)
  | 0, _ => []
  | n + 1, p =>
      let t := exportTickFn p
      if t.2 then [t] else t :: exportTraceAux n t.1

/-- The full event sequence of handleExport: the initial
setExportProgress(0) followed by the interval ticks from 0.  The fuel 64
is more than the 21 ticks the loop needs; the final event's Bool being
true (proved below) shows the run is complete. -/
def handleExportEvents : List (ℕ × Bool) := (0, false) :: exportTraceAux 64 0

/-- Modelled from the spec: whether time t is covered by some item's
[start, start+duration) interval.  The spec's Timeline Model operation
`gaps()` (§4.2) has no implementation anywhere under src; coverage is
written here from the spec's interval wording so that a gapped timeline
can be exhibited. -/
def coveredB (items : List TimelineItem) (t : ℚ) : Bool :=
  items.any (fun it => decide (it.startTime ≤ t) && decide (t < it.startTime + it.duration))

/-- A timeline covering [0,4) and [5,8): it has a gap at [4,5) for a
target duration of 8 seconds. -/
def gappedTimeline : List TimelineItem :=
  [⟨"g1", assetA, 0, 4, 0⟩, ⟨"g2", assetB, 5, 3, 1⟩]

/-- C2: the export path never fails on a gapped timeline.  The point
t = 9/2 of [0,8) is uncovered by `gappedTimeline`, yet handleExport —
which never consults the timeline at all — runs its simulated progress
loop to completion and fires onExport (final event's flag is true);
no IncompleteTimeline failure exists anywhere in the code. -/
theorem c2_counterexample :
    (0 ≤ (9 : ℚ)/2 ∧ (9 : ℚ)/2 < 8 ∧ coveredB gappedTimeline (9/2) = false) ∧
      handleExportEvents.getLast?.map Prod.snd = some true := by
  refine ⟨⟨by norm_num, by norm_num, ?_⟩, by decide⟩
  simp only [coveredB, gappedTimeline, List.any_cons, List.any_nil]
  norm_num

/-- C2 amended: export performs no gap check and cannot fail with
IncompleteTimeline: even when some point of [0, target) is uncovered,
the export run completes — its final event fires onExport — and every
firing event reports progress 100 with no error of any kind modelled,
because handleExport never reads the timeline. -/
theorem c2_amended (items : List TimelineItem) (target t : ℚ)
    (h0 : 0 ≤ t) (h1 : t < target) (h2 : coveredB items t = false) :
    handleExportEvents.getLast?.map Prod.snd = some true ∧
      ∀ e ∈ handleExportEvents, e.2 = true → e.1 = 100 := by
  exact ⟨by decide, by decide⟩

/-- C2 witness: the amended theorem applied to the concrete gapped
timeline at the uncovered point 9/2. -/
theorem c2_witness :
    coveredB gappedTimeline (9/2) = false ∧
      handleExportEvents.getLast?.map Prod.snd = some true := by
  have hcov : coveredB gappedTimeline (9/2) = false := by
    simp only [coveredB, gappedTimeline, List.any_cons, List.any_nil]
    norm_num
  exact ⟨hcov, (c2_amended gappedTimeline 8 (9/2) (by norm_num) (by norm_num) hcov).1⟩

/-- C8: the progress values emitted by handleExport are monotonically
non-decreasing, every value lies in [0,100], onExport fires only at
progress 100, it fires exactly once, and that firing event is the final
one of the run. -/
theorem c8_progress :
    List.Chain' (· ≤ ·) (handleExportEvents.map Prod.fst) ∧
      (∀ e ∈ handleExportEvents, e.1 ≤ 100) ∧
      (∀ e ∈ handleExportEvents, e.2 = true → e.1 = 100) ∧
      (handleExportEvents.filter (fun e => e.2)).length = 1 ∧
      handleExportEvents.getLast?.map Prod.snd = some true := by
  have he : handleExportEvents.map Prod.fst =
      [0, 5, 10, 15, 20, 25, 30, 35, 40, 45, 50, 55, 60,
        65, 70, 75, 80, 85, 90, 95, 100, 100] := by decide
  refine ⟨?_, by decide, by decide, by decide, by decide⟩
  rw [he]
  simp [List.chain'_cons]

/-! ## Clip creation (MediaCreator.createVideoClip) -/

/-- The asset created by createVideoClip from the selected images: type
video, url and thumbnail the first rendered frame, name derived from the
image count, and duration `selectedImages.length * clipDuration` — no
transition overlap is subtracted. -/
def createClipAsset (selected : List String) (clipDuration : ℚ)
    (newId : String) (firstFrame : String) : VisualAsset :=
  ⟨newId, .video, firstFrame, firstFrame,
    "Clip_" ++ toString selected.length ++ "_images",
    some (selected.length * clipDuration)⟩

/-- C1: the code sets the clip duration to n*d with no per-boundary
subtraction: three images at 3 s each yield a clip asset of duration
9 s, not the claimed 3*3 - 2*0.5 = 8 s. -/
theorem c1_counterexample :
    (createClipAsset ["i1", "i2", "i3"] 3 "c" "f").duration = some 9 ∧
      (9 : ℚ) ≠ 3 * 3 - (3 - 1) * (1/2) := by
  constructor
  · show some ((3 : ℕ) * (3 : ℚ)) = some 9
    norm_num
  · norm_num

/-- C1 amended: for n selected images (n > 0) at d seconds each the
created clip asset's duration is exactly the sum of the n per-image
durations, n*d, with nothing subtracted for transitions. -/
theorem c1_amended (selected : List String) (d : ℚ) (newId firstFrame : String)
    (h : 0 < selected.length) :
    (createClipAsset selected d newId firstFrame).duration =
      some (List.replicate selected.length d).sum := by
  simp [createClipAsset, List.sum_replicate, nsmul_eq_mul]

/-- C1 witness: the amended theorem applied to three images at 3 s. -/
theorem c1_witness :
    0 < (["i1", "i2", "i3"] : List String).length ∧
      (createClipAsset ["i1", "i2", "i3"] 3 "c" "f").duration =
        some (List.replicate (["i1", "i2", "i3"] : List String).length (3 : ℚ)).sum := by
  exact ⟨by decide, c1_amended ["i1", "i2", "i3"] 3 "c" "f" (by decide)⟩

/-! ## Letterbox fit (createVideoClip frame drawing) -/

/-- The draw rectangle computed by createVideoClip when placing a source
image on the 1920x1080 canvas. -/
structure DrawRect where
  x : ℚ
  y : ℚ
  w : ℚ
  h : ℚ
deriving DecidableEq

/-- createVideoClip's fit-to-canvas computation for a source of size
w x h on the fixed 1920x1080 canvas: if the image aspect exceeds the
canvas aspect, the draw width is the canvas width and the image is
vertically centered; otherwise the draw height is the canvas height and
the image is horizontally centered. -/
def fitToCanvas (w h : ℚ) : DrawRect :=
  let imgAspect := w / h
  let canvasAspect := (1920 : ℚ) / 1080
  if imgAspect > canvasAspect then
    ⟨0, (1080 - 1920 / imgAspect) / 2, 1920, 1920 / imgAspect⟩
  else
    ⟨(1920 - 1080 * imgAspect) / 2, 0, 1080 * imgAspect, 1080⟩

/-- C9: the fit preserves the source aspect ratio, and the image is
letterboxed centered: when w/h exceeds 1920/1080 the drawn width is the
canvas width, the horizontal offset is 0 and the vertical padding
centers the image; otherwise the drawn height is the canvas height, the
vertical offset is 0 and the horizontal padding centers the image. -/
theorem c9_letterbox (w h : ℚ) (hw : 0 < w) (hh : 0 < h) :
    (fitToCanvas w h).w / (fitToCanvas w h).h = w / h ∧
      (w / h > 1920 / 1080 →
        (fitToCanvas w h).w = 1920 ∧ (fitToCanvas w h).x = 0 ∧
          2 * (fitToCanvas w h).y + (fitToCanvas w h).h = 1080) ∧
      (¬ w / h > 1920 / 1080 →
        (fitToCanvas w h).h = 1080 ∧ (fitToCanvas w h).y = 0 ∧
          2 * (fitToCanvas w h).x + (fitToCanvas w h).w = 1920) := by
  have hw0 : w ≠ 0 := ne_of_gt hw
  have hh0 : h ≠ 0 := ne_of_gt hh
  by_cases hc : w / h > 1920 / 1080
  · have hd : w / h ≠ 0 := by positivity
    refine ⟨?_, fun _ => ⟨?_, ?_, ?_⟩, fun hcon => absurd hc hcon⟩
    · simp only [fitToCanvas, if_pos hc]
      field_simp
      ring
    · simp only [fitToCanvas, if_pos hc]
    · simp only [fitToCanvas, if_pos hc]
    · simp only [fitToCanvas, if_pos hc]
      ring
  · refine ⟨?_, fun hcon => absurd hcon hc, fun _ => ⟨?_, ?_, ?_⟩⟩
    · simp only [fitToCanvas, if_neg hc]
      field_simp
      ring
    · simp only [fitToCanvas, if_neg hc]
    · simp only [fitToCanvas, if_neg hc]
    · simp only [fitToCanvas, if_neg hc]
      ring

/-- C9 witness: a 3840x1080 source is fit at full canvas width,
vertically centered, preserving its aspect ratio. -/
theorem c9_witness :
    0 < (3840 : ℚ) ∧ 0 < (1080 : ℚ) ∧
      (fitToCanvas 3840 1080).w / (fitToCanvas 3840 1080).h = 3840 / 1080 := by
  exact ⟨by norm_num, by norm_num,
    (c9_letterbox 3840 1080 (by norm_num) (by norm_num)).1⟩

/-! ## Transform Pipeline (MediaCreator.applyImageEdits) -/

/-- One pixel with 8-bit channels modelled as rationals in [0,255]. -/
structure RGBA where
  r : ℚ
  g : ℚ
  b : ℚ
  a : ℚ
deriving DecidableEq

/-- A raster buffer: geometry plus row-major pixel storage. -/
structure Raster where
  width : ℕ
  height : ℕ
  pixels : List RGBA
deriving DecidableEq

/-- Channel values are clamped to the representable range [0,255]. -/
def clampC (x : ℚ) : ℚ := max 0 (min 255 x)

/-- A pixel is valid when its color channels lie in [0,255]. -/
def RGBA.ValidPx (p : RGBA) : Prop :=
  0 ≤ p.r ∧ p.r ≤ 255 ∧ 0 ≤ p.g ∧ p.g ≤ 255 ∧ 0 ≤ p.b ∧ p.b ≤ 255

instance (p : RGBA) : Decidable p.ValidPx :=
  inferInstanceAs (Decidable (_ ∧ _))

/-- A raster is valid when every pixel is. -/
def Raster.Valid (r : Raster) : Prop := ∀ p ∈ r.pixels, p.ValidPx

instance (r : Raster) : Decidable r.Valid :=
  inferInstanceAs (Decidable (∀ p ∈ r.pixels, p.ValidPx))

/-- CSS brightness(amount%): scales each color channel by amount/100. -/
def brightnessPx (amount : ℚ) (p : RGBA) : RGBA :=
  ⟨clampC (p.r * amount / 100), clampC (p.g * amount / 100),
    clampC (p.b * amount / 100), p.a⟩

/-- CSS contrast(amount%): scales each channel around mid-gray 128. -/
def contrastPx (amount : ℚ) (p : RGBA) : RGBA :=
  ⟨clampC ((p.r - 128) * (amount / 100) + 128),
    clampC ((p.g - 128) * (amount / 100) + 128),
    clampC ((p.b - 128) * (amount / 100) + 128), p.a⟩

/-- Luma of a pixel with the CSS saturation matrix coefficients. -/
def lumaOf (p : RGBA) : ℚ := (213 * p.r + 715 * p.g + 72 * p.b) / 1000

/-- CSS saturate(amount%): luma-preserving interpolation of each channel
toward/away from the pixel's luma. -/
def saturatePx (amount : ℚ) (p : RGBA) : RGBA :=
  ⟨clampC (lumaOf p + (p.r - lumaOf p) * amount / 100),
    clampC (lumaOf p + (p.g - lumaOf p) * amount / 100),
    clampC (lumaOf p + (p.b - lumaOf p) * amount / 100), p.a⟩

/-- CSS grayscale(amount%): interpolation toward the pixel's luma. -/
def grayscalePx (amount : ℚ) (p : RGBA) : RGBA :=
  ⟨clampC (p.r + (lumaOf p - p.r) * amount / 100),
    clampC (p.g + (lumaOf p - p.g) * amount / 100),
    clampC (p.b + (lumaOf p - p.b) * amount / 100), p.a⟩

/-- CSS invert(amount%): interpolation toward the inverted channel. -/
def invertPx (amount : ℚ) (p : RGBA) : RGBA :=
  ⟨clampC (p.r + (255 - 2 * p.r) * amount / 100),
    clampC (p.g + (255 - 2 * p.g) * amount / 100),
    clampC (p.b + (255 - 2 * p.b) * amount / 100), p.a⟩

/-- CSS sepia(amount%): interpolation toward the sepia color matrix. -/
def sepiaPx (amount : ℚ) (p : RGBA) : RGBA :=
  ⟨clampC (p.r + ((393 * p.r + 769 * p.g + 189 * p.b) / 1000 - p.r) * amount / 100),
    clampC (p.g + ((349 * p.r + 686 * p.g + 168 * p.b) / 1000 - p.g) * amount / 100),
    clampC (p.b + ((272 * p.r + 534 * p.g + 131 * p.b) / 1000 - p.b) * amount / 100), p.a⟩

/-- Applies a per-pixel function to every pixel of a raster. -/
def mapPx (f : RGBA → RGBA) (r : Raster) : Raster :=
  ⟨r.width, r.height, r.pixels.map f⟩

/-- One primitive CSS filter function, as listed in the imageFilters
catalog strings and in the ctx.filter template of applyImageEdits. -/
inductive FilterOp where
  | brightness (amount : ℚ)
  | contrast (amount : ℚ)
  | saturate (amount : ℚ)
  | sepia (amount : ℚ)
  | grayscale (amount : ℚ)
  | invert (amount : ℚ)
  | blur (px : ℚ)
  | hueRotate (deg : ℚ)
deriving DecidableEq

/-- Hooks for the two raster operations whose pixel math lives in the
browser, not in this repository: the spatial blur kernel, the hue-rotate
matrix (irrational for arbitrary angles) and the geometric resampling of
a rotated drawImage. -/
structure ExtOps where
  blur : ℚ → Raster → Raster
  hueRotate : ℚ → Raster → Raster
  resample : ℚ → Raster → Raster

/-- Semantics of one CSS filter function on a raster. -/
def applyOp (ext : ExtOps) : FilterOp → Raster → Raster
  | .brightness amount, r => mapPx (brightnessPx amount) r
  | .contrast amount, r => mapPx (contrastPx amount) r
  | .saturate amount, r => mapPx (saturatePx amount) r
  | .sepia amount, r => mapPx (sepiaPx amount) r
  | .grayscale amount, r => mapPx (grayscalePx amount) r
  | .invert amount, r => mapPx (invertPx amount) r
  | .blur px, r => ext.blur px r
  | .hueRotate deg, r => ext.hueRotate deg r

/-- CSS filter lists apply left to right, each op consuming the previous
op's output. -/
def applyOps (ext : ExtOps) (ops : List FilterOp) (r : Raster) : Raster :=
  ops.foldl (fun acc op => applyOp ext op acc) r

/-- One entry of the imageFilters catalog: display name and the parsed
ops of its CSS filter string. -/
structure ImageFilter where
  name : String
  ops : List FilterOp

/-- The imageFilters catalog of MediaCreator.tsx, with each CSS filter
string parsed into its ops ('none' parses to the empty list). -/
def imageFilters : List ImageFilter :=
  [⟨"None", []⟩,
   ⟨"Sepia", [.sepia 100]⟩,
   ⟨"Grayscale", [.grayscale 100]⟩,
   ⟨"Blur", [.blur 2]⟩,
   ⟨"Brightness", [.brightness 150]⟩,
   ⟨"Contrast", [.contrast 150]⟩,
   ⟨"Saturate", [.saturate 200]⟩,
   ⟨"Hue Rotate", [.hueRotate 90]⟩,
   ⟨"Invert", [.invert 100]⟩,
   ⟨"Vintage", [.sepia 50, .contrast 120, .brightness 110]⟩,
   ⟨"Cool", [.hueRotate 180, .saturate 120]⟩,
   ⟨"Warm", [.hueRotate 30, .saturate 130, .brightness 110]⟩]

/-- The catalog ops selected by applyImageEdits' template: nothing when
selectedFilter is 'none', otherwise the ops of the entry whose
lowercased name equals selectedFilter (empty when not found, mirroring
`|| ''`). -/
def catalogOps (selectedFilter : String) : List FilterOp :=
  if selectedFilter = "none" then []
  else ((imageFilters.find? (fun f => f.name.toLower = selectedFilter)).map
    ImageFilter.ops).getD []

/-- The full ctx.filter list built at MediaCreator.tsx line 119:
brightness, then contrast, then saturate, then the catalog filter. -/
def ctxFilterOps (brightness contrast saturation : ℚ)
    (selectedFilter : String) : List FilterOp :=
  [.brightness brightness, .contrast contrast, .saturate saturation] ++
    catalogOps selectedFilter

/-- The image editor's parameter state in MediaCreator.tsx. -/
structure EditParams where
  brightness : ℚ
  contrast : ℚ
  saturation : ℚ
  selectedFilter : String
  textOverlay : String
  textColor : String
  textSize : ℕ
  rotation : ℚ

/-- The editor's initial state: all factors 100, filter 'none', no text,
white 24 px text settings, rotation 0 — the identity parameter set. -/
def identityParams : EditParams :=
  ⟨100, 100, 100, "none", "", "#ffffff", 24, 0⟩

/-- A fillText call recorded with the canvas state in effect when it
runs: the text, fillStyle color, font pixel size, centered anchor
coordinates, the rotation of the current transform (applyImageEdits
rotates about the canvas center before drawing and restores only after
the text is drawn), and the ctx.filter active for the call. -/
structure TextDraw where
  text : String
  color : String
  size : ℕ
  x : ℚ
  y : ℚ
  angle : ℚ
  activeOps : List FilterOp
deriving DecidableEq

/-- The output of applyImageEdits: the drawn image plus the recorded
text-overlay draw, if any. -/
structure CanvasOut where
  image : Raster
  overlay : Option TextDraw

/-- MediaCreator.applyImageEdits: the canvas is sized to the source, the
context is rotated about the center, drawImage runs under the ctx.filter
chain (brightness, contrast, saturate, catalog filter), and, when
textOverlay is non-empty, ctx.filter is reset to 'none' and the text is
filled centered — with the rotation transform still active, since
ctx.restore() runs only afterwards. -/
def applyImageEdits (ext : ExtOps) (p : EditParams) (img : Raster) : CanvasOut :=
  let base := applyOps ext
    (ctxFilterOps p.brightness p.contrast p.saturation p.selectedFilter)
    (ext.resample p.rotation img)
  let overlay : Option TextDraw :=
    if p.textOverlay = "" then none
    else some ⟨p.textOverlay, p.textColor, p.textSize,
      (img.width : ℚ) / 2, (img.height : ℚ) / 2, p.rotation, []⟩
  ⟨base, overlay⟩

/-! ### C6: order of the color stages -/

/-- Helper: unfolding the ctx.filter chain into its nested stages. -/
theorem applyOps_ctx_split (ext : ExtOps) (brightness contrast saturation : ℚ)
    (selectedFilter : String) (r : Raster) :
    applyOps ext (ctxFilterOps brightness contrast saturation selectedFilter) r =
      applyOps ext (catalogOps selectedFilter)
        (mapPx (saturatePx saturation)
          (mapPx (contrastPx contrast)
            (mapPx (brightnessPx brightness) r))) := by
  simp [ctxFilterOps, applyOps, applyOp]

/-- C6: the ctx.filter chain applies brightness first, then contrast,
then saturation, then the catalog filter (nothing when 'none'), each
stage consuming the previous stage's output. -/
theorem c6_color_order (ext : ExtOps) (brightness contrast saturation : ℚ)
    (selectedFilter : String) (r : Raster) :
    applyOps ext (ctxFilterOps brightness contrast saturation selectedFilter) r =
      applyOps ext (catalogOps selectedFilter)
        (mapPx (saturatePx saturation)
          (mapPx (contrastPx contrast)
            (mapPx (brightnessPx brightness) r))) :=
  applyOps_ctx_split ext brightness contrast saturation selectedFilter r

/-! ### C4: identity parameters are a no-op -/

/-- A valid channel is fixed by clamping. -/
theorem clampC_eq {x : ℚ} (h0 : 0 ≤ x) (h1 : x ≤ 255) : clampC x = x := by
  unfold clampC
  rw [min_eq_right h1, max_eq_right h0]

/-- brightness(100%) fixes every valid pixel. -/
theorem brightnessPx_id (p : RGBA) (h : p.ValidPx) : brightnessPx 100 p = p := by
  obtain ⟨h1, h2, h3, h4, h5, h6⟩ := h
  have e : ∀ x : ℚ, x * 100 / 100 = x := fun x => by norm_num
  cases p
  simp only [brightnessPx, e]
  simp_all [clampC_eq]

/-- contrast(100%) fixes every valid pixel. -/
theorem contrastPx_id (p : RGBA) (h : p.ValidPx) : contrastPx 100 p = p := by
  obtain ⟨h1, h2, h3, h4, h5, h6⟩ := h
  have e : ∀ x : ℚ, (x - 128) * (100 / 100) + 128 = x := fun x => by norm_num
  cases p
  simp only [contrastPx, e]
  simp_all [clampC_eq]

/-- saturate(100%) fixes every valid pixel. -/
theorem saturatePx_id (p : RGBA) (h : p.ValidPx) : saturatePx 100 p = p := by
  obtain ⟨h1, h2, h3, h4, h5, h6⟩ := h
  have e : ∀ x l : ℚ, l + (x - l) * 100 / 100 = x := fun x l => by
    field_simp
  cases p
  simp only [saturatePx, e]
  simp_all [clampC_eq]

/-- A per-pixel stage that fixes valid pixels fixes valid rasters. -/
theorem mapPx_id (f : RGBA → RGBA) (r : Raster) (hval : r.Valid)
    (hf : ∀ p : RGBA, p.ValidPx → f p = p) : mapPx f r = r := by
  cases r with
  | mk w h px =>
      simp only [mapPx, Raster.mk.injEq, true_and]
      exact list_map_self f px (fun p hp => hf p (hval p hp))

/-- C4: with identity parameters (all factors 100, rotation 0, filter
'none', no overlay) applyImageEdits returns the input raster unchanged
and draws no overlay, for every valid raster and every browser
resampler that copies exactly under the identity transform. -/
theorem c4_identity (ext : ExtOps) (img : Raster) (hval : img.Valid)
    (hres : ext.resample 0 img = img) :
    applyImageEdits ext identityParams img = ⟨img, none⟩ := by
  have hcat : catalogOps "none" = [] := by simp [catalogOps]
  have hchain :
      applyOps ext (ctxFilterOps 100 100 100 "none") img = img := by
    rw [applyOps_ctx_split, hcat]
    rw [mapPx_id _ _ hval brightnessPx_id]
    rw [mapPx_id _ _ hval contrastPx_id]
    rw [mapPx_id _ _ hval saturatePx_id]
    rfl
  simp only [applyImageEdits, identityParams, hres, hchain]
  rfl

/-- The identity instantiation of the browser-side hooks. -/
def extId : ExtOps := ⟨fun _ r => r, fun _ r => r, fun _ r => r⟩

/-- A small concrete valid raster. -/
def rTest : Raster := ⟨2, 1, [⟨10, 20, 30, 255⟩, ⟨40, 50, 60, 255⟩]⟩

/-- C4 witness: the identity transform on the concrete raster. -/
theorem c4_witness :
    rTest.Valid ∧ applyImageEdits extId identityParams rTest = ⟨rTest, none⟩ := by
  exact ⟨by decide, c4_identity extId rTest (by decide) rfl⟩

/-! ### C5: the text overlay pass -/

/-- Identity color factors with rotation 90 and a non-empty overlay. -/
def pRot : EditParams := ⟨100, 100, 100, "none", "Hi", "#ff0000", 24, 90⟩

/-- C5: the overlay is NOT unaffected by the rotation.  With rotation 90
the fillText call runs while the rotation transform is still active
(ctx.restore() comes only after it), so the recorded draw carries
angle 90, not the 0 the claim requires. -/
theorem c5_counterexample :
    (applyImageEdits extId pRot rTest).overlay =
      some ⟨"Hi", "#ff0000", 24, 1, 1/2, 90, []⟩ ∧ (90 : ℚ) ≠ 0 := by
  constructor
  · show (if ("Hi" : String) = "" then none else some (⟨"Hi", "#ff0000", 24,
      ((2 : ℕ) : ℚ) / 2, ((1 : ℕ) : ℚ) / 2, 90, []⟩ : TextDraw)) =
      some ⟨"Hi", "#ff0000", 24, 1, 1/2, 90, []⟩
    rw [if_neg (by decide : ¬("Hi" : String) = "")]
    norm_num
  · norm_num

/-- C5 amended: when the text overlay is non-empty it is rendered last
as a final pass with ctx.filter reset to 'none' (so it is excluded from
the color/filter chain), anchored at the canvas center in the specified
color and pixel size — but it is drawn under the still-active rotation
transform, so it is rotated together with the image. -/
theorem c5_amended (ext : ExtOps) (p : EditParams) (img : Raster)
    (h : p.textOverlay ≠ "") :
    (applyImageEdits ext p img).overlay =
      some ⟨p.textOverlay, p.textColor, p.textSize,
        (img.width : ℚ) / 2, (img.height : ℚ) / 2, p.rotation, []⟩ := by
  simp [applyImageEdits, h]

/-- C5 witness: the amended theorem at the concrete rotated parameters. -/
theorem c5_witness :
    pRot.textOverlay ≠ "" ∧
      (applyImageEdits extId pRot rTest).overlay =
        some ⟨pRot.textOverlay, pRot.textColor, pRot.textSize,
          (rTest.width : ℚ) / 2, (rTest.height : ℚ) / 2, pRot.rotation, []⟩ := by
  exact ⟨by decide, c5_amended extId pRot rTest (by decide)⟩
